import Mathlib

/-!
Verification of the map-the-solar-system core against its specification.

The development shallowly embeds the relevant parts of the source:
* `src/lib/indexedDB.ts` — the persistent keyed store (`putRecord`,
  `storeAsteroids`, `getPartialLoadProgress`, `streamAsteroidsFromCache`, …),
  modelled as explicit state passing over a `DBState` record;
* `src/lib/dataLoader.ts` — the ingestion pipeline (CSV row parsing,
  enrichment, the resumable batched storing loop);
* `src/three/AsteroidBeltOptimized.ts` — the orbital solver
  (`orbitalToCartesian`) and the instance-building renderer (`loadAsteroids`),
  with JavaScript floating-point arithmetic embedded over `ℝ`.

JavaScript's `x || d` fallback on numbers/strings is embedded explicitly
(`jsOrNum`, `jsOrStr`, …), and optional (`Partial`) fields are `Option`s.
-/

namespace MapSolar

/-- The enriched asteroid record (`Asteroid` interface in `indexedDB.ts`).
`class` is a reserved word in Lean, so that field is named `cls`.
`estimatedValue` is produced by `Math.round`, hence `ℤ`. -/
structure Asteroid where
  id : String
  spkid : ℝ
  full_name : String
  pdes : String
  name : String
  neo : Bool
  pha : Bool
  H : ℝ
  diameter : ℝ
  albedo : ℝ
  diameter_sigma : ℝ
  orbit_id : String
  epoch : ℝ
  epoch_mjd : ℝ
  e : ℝ
  a : ℝ
  q : ℝ
  i : ℝ
  om : ℝ
  w : ℝ
  ma : ℝ
  ad : ℝ
  n : ℝ
  tp : ℝ
  per : ℝ
  per_y : ℝ
  moid : ℝ
  moid_ld : ℝ
  cls : String
  rms : ℝ
  estimatedValue : ℤ
  miningDifficulty : String
  category : String
  color : String

/-- JavaScript `v || d` on numbers: `0` (and `NaN`, not representable here)
falls back to the default. -/
noncomputable def jsOrNum (v d : ℝ) : ℝ := if v = 0 then d else v

/-- JavaScript `v || d` on strings: the empty string falls back. -/
def jsOrStr (v d : String) : String := if v = "" then d else v

/-- JavaScript `v || d` where `v` is a possibly-missing number field. -/
noncomputable def jsOrONum (v : Option ℝ) (d : ℝ) : ℝ :=
  match v with
  | none => d
  | some x => jsOrNum x d

/-- JavaScript `v || d` where `v` is a possibly-missing string field. -/
def jsOrOStr (v : Option String) (d : String) : String :=
  match v with
  | none => d
  | some x => jsOrStr x d

/-- JavaScript `v || false` on a possibly-missing boolean field. -/
def jsOrOBool (v : Option Bool) : Bool := v.getD false

/-! ## The persistent store (`src/lib/indexedDB.ts`)

The IndexedDB object store `asteroids` has `keyPath: 'id'`; `put` is an
upsert by that key.  The store is modelled as a list of records in which a
`put` of an already-present key replaces that entry in place and a `put` of
a fresh key appends.  The `metadata` store holds the `loadProgress`
checkpoint (a `(storedCount, totalExpected)` pair) and the `dataLoaded`
flag. -/

/-- One IndexedDB `put` of a record into the `asteroids` store (keyed by
`id`): replace the entry with the same key, or append if the key is new. -/
def putRecord (s : List Asteroid) (r : Asteroid) : List Asteroid :=
  if s.any (fun x => x.id == r.id) then
    s.map (fun x => if x.id == r.id then r else x)
  else
    s ++ [r]

/-- The effect on the `asteroids` store of `storeAsteroids(batch)`: one
`put` per record, in order. -/
def putFold (s : List Asteroid) (batch : List Asteroid) : List Asteroid :=
  batch.foldl putRecord s

/-- The full IndexedDB state: the `asteroids` store plus the two metadata
rows (`loadProgress`, `dataLoaded`). -/
structure DBState where
  asteroids : List Asteroid
  loadProgress : Option (Nat × Nat)
  dataLoaded : Bool

/-- Result type of `getPartialLoadProgress`. -/
structure PartialProgress where
  storedCount : Nat
  totalExpected : Nat
  isComplete : Bool
  deriving DecidableEq

/-- `isDataCached`: the `dataLoaded` metadata row is `true`. -/
def isDataCached (db : DBState) : Bool := db.dataLoaded

/-- `getCachedCount`: `db.count(STORE_NAME)`. -/
def getCachedCount (db : DBState) : Nat := db.asteroids.length

/-- `getPartialLoadProgress`: `storedCount` is a live `db.count` of the
asteroid store; `totalExpected` comes from the `loadProgress` metadata row
(`meta?.totalExpected || 0`); `isComplete` from the `dataLoaded` row. -/
def getPartialLoadProgress (db : DBState) : PartialProgress :=
  { storedCount := db.asteroids.length
    totalExpected := (db.loadProgress.map Prod.snd).getD 0
    isComplete := db.dataLoaded }

/-- `updatePartialLoadProgress(storedCount, totalExpected)`: overwrite the
`loadProgress` metadata row. -/
def updatePartialLoadProgress (storedCount totalExpected : Nat)
    (db : DBState) : DBState :=
  { db with loadProgress := some (storedCount, totalExpected) }

/-- `storeAsteroids(batch)`: put every record of the batch, in order. -/
def storeAsteroids (batch : List Asteroid) (db : DBState) : DBState :=
  { db with asteroids := putFold db.asteroids batch }

/-- `markDataLoaded`: set the `dataLoaded` metadata row. -/
def markDataLoaded (db : DBState) : DBState := { db with dataLoaded := true }

/-- `getAsteroidById(id)`: `db.get(STORE_NAME, id)` — the record stored
under that key, if any. -/
def getAsteroidById (db : DBState) (k : String) : Option Asteroid :=
  db.asteroids.find? (fun x => x.id == k)

/-- Key lookup on the raw store list. -/
def getById (s : List Asteroid) (k : String) : Option Asteroid :=
  s.find? (fun x => x.id == k)

/-- The value a fold of puts leaves under key `k` is the last record of the
batch with that key, if the batch mentions `k` at all. -/
def lastWrite (batch : List Asteroid) (k : String) : Option Asteroid :=
  batch.reverse.find? (fun x => x.id == k)

section StoreLemmas

lemma any_eq_false_forall {p : Asteroid → Bool} {s : List Asteroid}
    (h : ¬ (s.any p) = true) : ∀ x ∈ s, p x = false := by
  intro x hx
  rw [List.any_eq_true] at h
  push_neg at h
  simpa using h x hx

lemma map_eq_self_of (l : List Asteroid) (f : Asteroid → Asteroid)
    (h : ∀ x ∈ l, f x = x) : l.map f = l := by
  induction l with
  | nil => rfl
  | cons x t ih =>
    simp only [List.map_cons]
    rw [h x (List.mem_cons_self x t), ih fun y hy => h y (List.mem_cons_of_mem x hy)]

lemma putRecord_idem (s : List Asteroid) (r : Asteroid) :
    putRecord (putRecord s r) r = putRecord s r := by
  by_cases h : s.any (fun x => x.id == r.id)
  · have h1 : putRecord s r = s.map (fun x => if x.id == r.id then r else x) := by
      simp [putRecord, h]
    have h2 : (s.map (fun x => if x.id == r.id then r else x)).any
        (fun x => x.id == r.id) = true := by
      rw [List.any_eq_true] at h ⊢
      obtain ⟨x, hx, hid⟩ := h
      exact ⟨r, List.mem_map.2 ⟨x, hx, by simp [hid]⟩, by simp⟩
    rw [h1, putRecord, if_pos h2, List.map_map]
    apply List.map_congr_left
    intro x _
    by_cases hx : x.id = r.id <;> simp [hx]
  · have h1 : putRecord s r = s ++ [r] := by simp [putRecord, h]
    have h2 : (s ++ [r]).any (fun x => x.id == r.id) = true := by
      rw [List.any_eq_true]
      exact ⟨r, by simp, by simp⟩
    rw [h1, putRecord, if_pos h2, List.map_append]
    have h3 : ∀ x ∈ s, (if x.id == r.id then r else x) = x := by
      intro x hx
      have := any_eq_false_forall h x hx
      simp only [this, Bool.false_eq_true, if_false]
    rw [map_eq_self_of s _ h3]
    simp

lemma find_map_self (s : List Asteroid) (r : Asteroid)
    (h : s.any (fun x => x.id == r.id) = true) :
    (s.map (fun x => if x.id == r.id then r else x)).find?
      (fun x => x.id == r.id) = some r := by
  induction s with
  | nil => simp at h
  | cons x t ih =>
    by_cases hx : x.id = r.id
    · have hgx : (if (x.id == r.id) = true then r else x) = r := by simp [hx]
      have hb : (r.id == r.id) = true := by simp
      simp only [List.map_cons, hgx, List.find?_cons, hb]
    · have ht : t.any (fun y => y.id == r.id) = true := by simpa [hx] using h
      have hb : (x.id == r.id) = false := by simp [hx]
      simp only [List.map_cons, List.find?_cons, hb, Bool.false_eq_true, if_false]
      exact ih ht

lemma getById_putRecord (s : List Asteroid) (r : Asteroid) :
    getById (putRecord s r) r.id = some r := by
  by_cases h : s.any (fun x => x.id == r.id)
  · rw [putRecord, if_pos h, getById]
    exact find_map_self s r h
  · rw [putRecord, if_neg h, getById, List.find?_append]
    have hnone : s.find? (fun x => x.id == r.id) = none := by
      rw [List.find?_eq_none]
      intro x hx
      simpa using any_eq_false_forall h x hx
    simp [hnone]

lemma find_map_ne (s : List Asteroid) (r : Asteroid) (k : String)
    (hk : k ≠ r.id) :
    (s.map (fun x => if x.id == r.id then r else x)).find?
      (fun x => x.id == k) = s.find? (fun x => x.id == k) := by
  induction s with
  | nil => rfl
  | cons x t ih =>
    by_cases hx : x.id = r.id
    · have hgx : (if (x.id == r.id) = true then r else x) = r := by simp [hx]
      have h2 : (r.id == k) = false := by simpa using Ne.symm hk
      have h3 : (x.id == k) = false := by
        rw [hx]; simpa using Ne.symm hk
      simp only [List.map_cons, hgx, List.find?_cons, h2, h3]
      exact ih
    · have hgx : (if (x.id == r.id) = true then r else x) = x := by simp [hx]
      simp only [List.map_cons, hgx, List.find?_cons]
      cases hxk : (x.id == k) with
      | true => simp
      | false => simpa using ih

lemma getById_putRecord_ne (s : List Asteroid) (r : Asteroid) (k : String)
    (hk : k ≠ r.id) : getById (putRecord s r) k = getById s k := by
  by_cases h : s.any (fun x => x.id == r.id)
  · rw [putRecord, if_pos h, getById, getById]
    exact find_map_ne s r k hk
  · rw [putRecord, if_neg h, getById, getById, List.find?_append]
    have hr : List.find? (fun x => x.id == k) [r] = none := by
      simpa using Ne.symm hk
    cases hs : s.find? (fun x => x.id == k) <;> simp [hr]

lemma getById_putFold (s : List Asteroid) (l : List Asteroid) (k : String) :
    getById (putFold s l) k =
      (match lastWrite l k with
       | some v => some v
       | none => getById s k) := by
  induction l generalizing s with
  | nil => simp [putFold, lastWrite]
  | cons x t ih =>
    have hstep : putFold s (x :: t) = putFold (putRecord s x) t := rfl
    rw [hstep, ih]
    have hrev : lastWrite (x :: t) k =
        (match lastWrite t k with
         | some v => some v
         | none => List.find? (fun y => y.id == k) [x]) := by
      rw [lastWrite, lastWrite, List.reverse_cons, List.find?_append]
      cases t.reverse.find? (fun y => y.id == k) <;> simp [Option.orElse]
    rw [hrev]
    cases hlt : lastWrite t k with
    | some v => simp
    | none =>
      simp only
      by_cases hx : x.id = k
      · subst hx
        simp [getById_putRecord]
      · rw [getById_putRecord_ne s x k (fun h' => hx h'.symm)]
        simp [hx]

lemma putRecord_length_of_mem (s : List Asteroid) (r : Asteroid)
    (h : ∃ y ∈ s, y.id = r.id) : (putRecord s r).length = s.length := by
  have ha : s.any (fun x => x.id == r.id) = true := by
    rw [List.any_eq_true]
    obtain ⟨y, hy, hid⟩ := h
    exact ⟨y, hy, by simp [hid]⟩
  rw [putRecord, if_pos ha, List.length_map]

lemma putRecord_id_mem (s : List Asteroid) (r : Asteroid) :
    ∃ y ∈ putRecord s r, y.id = r.id := by
  by_cases h : s.any (fun x => x.id == r.id)
  · rw [List.any_eq_true] at h
    obtain ⟨x, hx, hid⟩ := h
    exact ⟨r, by rw [putRecord, if_pos (by rw [List.any_eq_true]; exact ⟨x, hx, hid⟩)]
                 exact List.mem_map.2 ⟨x, hx, by simp [hid]⟩, rfl⟩
  · exact ⟨r, by rw [putRecord, if_neg h]; simp, rfl⟩

lemma putRecord_id_pres (s : List Asteroid) (r : Asteroid) (k : String)
    (h : ∃ y ∈ s, y.id = k) : ∃ y ∈ putRecord s r, y.id = k := by
  obtain ⟨y, hy, hid⟩ := h
  by_cases ha : s.any (fun x => x.id == r.id)
  · rw [putRecord, if_pos ha]
    by_cases hyr : y.id = r.id
    · exact ⟨r, List.mem_map.2 ⟨y, hy, by simp [hyr]⟩, by rw [← hyr, hid]⟩
    · exact ⟨y, List.mem_map.2 ⟨y, hy, by simp [hyr]⟩, hid⟩
  · exact ⟨y, by rw [putRecord, if_neg ha]; exact List.mem_append_left _ hy, hid⟩

lemma putFold_id_pres (s : List Asteroid) (l : List Asteroid) (k : String)
    (h : ∃ y ∈ s, y.id = k) : ∃ y ∈ putFold s l, y.id = k := by
  induction l generalizing s with
  | nil => exact h
  | cons x t ih => exact ih (putRecord s x) (putRecord_id_pres s x k h)

lemma putFold_id_mem (s : List Asteroid) (l : List Asteroid) (x : Asteroid)
    (hx : x ∈ l) : ∃ y ∈ putFold s l, y.id = x.id := by
  induction l generalizing s with
  | nil => cases hx
  | cons z t ih =>
    rcases List.mem_cons.1 hx with h | h
    · subst h
      exact putFold_id_pres (putRecord s x) t x.id (putRecord_id_mem s x)
    · exact ih (putRecord s z) h

lemma putFold_length_of_sub (s : List Asteroid) (l : List Asteroid)
    (h : ∀ x ∈ l, ∃ y ∈ s, y.id = x.id) :
    (putFold s l).length = s.length := by
  induction l generalizing s with
  | nil => rfl
  | cons x t ih =>
    have h1 : (putRecord s x).length = s.length :=
      putRecord_length_of_mem s x (h x (List.mem_cons_self x t))
    have h2 : ∀ z ∈ t, ∃ y ∈ putRecord s x, y.id = z.id := by
      intro z hz
      exact putRecord_id_pres s x z.id (h z (List.mem_cons_of_mem x hz))
    have hstep : putFold s (x :: t) = putFold (putRecord s x) t := rfl
    rw [hstep, ih (putRecord s x) h2, h1]

lemma putFold_replay_length (s : List Asteroid) (l : List Asteroid) :
    (putFold (putFold s l) l).length = (putFold s l).length :=
  putFold_length_of_sub (putFold s l) l fun x hx => putFold_id_mem s l x hx

lemma putFold_replay_getById (s : List Asteroid) (l : List Asteroid)
    (k : String) :
    getById (putFold (putFold s l) l) k = getById (putFold s l) k := by
  rw [getById_putFold, getById_putFold]
  cases h : lastWrite l k <;> simp

end StoreLemmas

/-- C7. Upsert is idempotent: putting the same record twice equals a single
put (hence `count()` is unchanged and the stored value under the key is the
single-write value), and replaying a whole batch over a store that already
absorbed it changes neither the count nor any stored value. -/
theorem C7_upsert_idempotent (s : List Asteroid) (r : Asteroid)
    (l : List Asteroid) (db : DBState) :
    putRecord (putRecord s r) r = putRecord s r ∧
    getById (putRecord s r) r.id = some r ∧
    getCachedCount (storeAsteroids l (storeAsteroids l db)) =
      getCachedCount (storeAsteroids l db) ∧
    (∀ k, getAsteroidById (storeAsteroids l (storeAsteroids l db)) k =
      getAsteroidById (storeAsteroids l db) k) :=
  ⟨putRecord_idem s r, getById_putRecord s r,
    putFold_replay_length db.asteroids l,
    fun k => putFold_replay_getById db.asteroids l k⟩

/-! ## The resumable storing phase of `loadAsteroidData`
(`src/lib/dataLoader.ts`, lines 370–396)

After parsing, the pipeline writes the enriched records in batches of
`storeBatchSize = 5000`, starting from the batch boundary at or before the
number of records already stored
(`Math.floor(alreadyStored / storeBatchSize) * storeBatchSize`), updating
the `loadProgress` checkpoint after every batch, and finally calls
`markDataLoaded`. -/

/-- `const storeBatchSize = 5000`. -/
def storeBatchSize : Nat := 5000

/-- `const startIndex = alreadyStored > 0 ?
Math.floor(alreadyStored / storeBatchSize) * storeBatchSize : 0`. -/
def resumeStartIndex (alreadyStored : Nat) : Nat :=
  if alreadyStored > 0 then alreadyStored / storeBatchSize * storeBatchSize
  else 0

/-- The `for (let i = startIndex; i < asteroids.length; i += storeBatchSize)`
storing loop: store the slice `[i, i + storeBatchSize)`, record the
checkpoint, continue. -/
def storeLoop (rs : List Asteroid) (i : Nat) (db : DBState) : DBState :=
  if i < rs.length then
    storeLoop rs (i + storeBatchSize)
      (updatePartialLoadProgress (min (i + storeBatchSize) rs.length) rs.length
        (storeAsteroids ((rs.drop i).take storeBatchSize) db))
  else db
termination_by rs.length - i
decreasing_by simp only [storeBatchSize]; omega

/-- The storing phase: read `alreadyStored` from `getPartialLoadProgress`,
run the batched loop from the resume boundary, then `markDataLoaded`. -/
def storingPhase (rs : List Asteroid) (db : DBState) : DBState :=
  markDataLoaded
    (storeLoop rs (resumeStartIndex (getPartialLoadProgress db).storedCount) db)

section ResumeLemmas

lemma putRecord_fresh (s : List Asteroid) (x : Asteroid)
    (h : ∀ y ∈ s, y.id ≠ x.id) : putRecord s x = s ++ [x] := by
  have ha : ¬ s.any (fun y => y.id == x.id) = true := by
    rw [List.any_eq_true]
    rintro ⟨y, hy, hid⟩
    exact h y hy (by simpa using hid)
  rw [putRecord, if_neg ha]

lemma putRecord_self_of_mem (s : List Asteroid) (x : Asteroid)
    (hmem : x ∈ s) (hn : (s.map (fun y => y.id)).Nodup) :
    putRecord s x = s := by
  have ha : s.any (fun y => y.id == x.id) = true := by
    rw [List.any_eq_true]
    exact ⟨x, hmem, by simp⟩
  rw [putRecord, if_pos ha]
  apply map_eq_self_of
  intro y hy
  by_cases hid : y.id = x.id
  · have : y = x := List.inj_on_of_nodup_map hn hy hmem hid
    simp [hid, this]
  · simp [hid]

lemma putFold_of_forall_mem (s : List Asteroid) (l : List Asteroid)
    (h : ∀ x ∈ l, x ∈ s) (hn : (s.map (fun y => y.id)).Nodup) :
    putFold s l = s := by
  induction l with
  | nil => rfl
  | cons x t ih =>
    have hstep : putFold s (x :: t) = putFold (putRecord s x) t := rfl
    rw [hstep, putRecord_self_of_mem s x (h x (List.mem_cons_self x t)) hn]
    exact ih fun z hz => h z (List.mem_cons_of_mem x hz)

lemma putFold_fresh (s : List Asteroid) (l : List Asteroid)
    (hn : ((s ++ l).map (fun y => y.id)).Nodup) : putFold s l = s ++ l := by
  induction l generalizing s with
  | nil => simp [putFold]
  | cons x t ih =>
    have hx : ∀ y ∈ s, y.id ≠ x.id := by
      intro y hy hid
      rw [List.map_append, List.nodup_append] at hn
      have h1 : y.id ∈ s.map (fun y => y.id) := List.mem_map_of_mem _ hy
      have h2 : y.id ∈ (x :: t).map (fun y => y.id) := by
        rw [hid]
        exact List.mem_map_of_mem _ (List.mem_cons_self x t)
      exact hn.2.2 h1 h2
    have hstep : putFold s (x :: t) = putFold (putRecord s x) t := rfl
    rw [hstep, putRecord_fresh s x hx]
    have hn' : (((s ++ [x]) ++ t).map (fun y => y.id)).Nodup := by
      rw [List.append_assoc]
      simpa using hn
    rw [ih (s ++ [x]) hn', List.append_assoc]
    rfl

lemma putFold_append (s : List Asteroid) (l₁ l₂ : List Asteroid) :
    putFold s (l₁ ++ l₂) = putFold (putFold s l₁) l₂ :=
  List.foldl_append putRecord s l₁ l₂

lemma storeLoop_spec (rs : List Asteroid) :
    ∀ i db, (storeLoop rs i db).asteroids = putFold db.asteroids (rs.drop i) ∧
      (storeLoop rs i db).dataLoaded = db.dataLoaded := by
  have H : ∀ fuel i db, rs.length - i ≤ fuel →
      (storeLoop rs i db).asteroids = putFold db.asteroids (rs.drop i) ∧
      (storeLoop rs i db).dataLoaded = db.dataLoaded := by
    intro fuel
    induction fuel with
    | zero =>
      intro i db hle
      have hge : ¬ i < rs.length := by omega
      rw [storeLoop, if_neg hge]
      have hdrop : rs.drop i = [] := List.drop_eq_nil_of_le (by omega)
      rw [hdrop]
      exact ⟨rfl, rfl⟩
    | succ f ihf =>
      intro i db hle
      by_cases h : i < rs.length
      · rw [storeLoop, if_pos h]
        have hb : 0 < storeBatchSize := by simp [storeBatchSize]
        have hrec := ihf (i + storeBatchSize)
          (updatePartialLoadProgress (min (i + storeBatchSize) rs.length)
            rs.length (storeAsteroids ((rs.drop i).take storeBatchSize) db))
          (by omega)
        rw [hrec.1, hrec.2]
        constructor
        · have hsplit : (rs.drop i).take storeBatchSize ++ rs.drop (i + storeBatchSize)
              = rs.drop i := by
            have h1 : rs.drop (i + storeBatchSize) = (rs.drop i).drop storeBatchSize := by
              rw [List.drop_drop, Nat.add_comm]
            rw [h1, List.take_append_drop]
          show putFold (putFold db.asteroids ((rs.drop i).take storeBatchSize))
              (rs.drop (i + storeBatchSize)) = putFold db.asteroids (rs.drop i)
          rw [← putFold_append, hsplit]
        · rfl
      · rw [storeLoop, if_neg h]
        have hdrop : rs.drop i = [] := List.drop_eq_nil_of_le (by omega)
        rw [hdrop]
        exact ⟨rfl, rfl⟩
  intro i db
  exact H (rs.length - i) i db le_rfl

lemma drop_split_of_le (rs : List Asteroid) (S N : Nat) (hSN : S ≤ N) :
    rs.drop S = (rs.take N).drop S ++ rs.drop N := by
  have h1 : (rs.take N).drop S = (rs.drop S).take (N - S) := List.drop_take N S rs
  have h2 : rs.drop N = (rs.drop S).drop (N - S) := by
    rw [List.drop_drop]
    congr 1
    omega
  rw [h1, h2, List.take_append_drop]

end ResumeLemmas

/-- C3. Resume safety: if the store already holds exactly the first `N`
records (the interrupted run's durably written prefix), restarting the
storing phase begins at the batch boundary at or before `N` and finishes
with the `complete` flag set, `count()` equal to the number of records, and
no duplicate keys — the redundantly reprocessed batches are absorbed by the
keyed upserts.  (In fact the final store is exactly the full record list.) -/
theorem C3_resume_safety (rs : List Asteroid) (N : Nat) (db : DBState)
    (hdb : db.asteroids = putFold [] (rs.take N))
    (hnodup : (rs.map (fun x => x.id)).Nodup)
    (hN : N ≤ rs.length) :
    resumeStartIndex N ≤ N ∧
    (storingPhase rs db).dataLoaded = true ∧
    getCachedCount (storingPhase rs db) = rs.length ∧
    ((storingPhase rs db).asteroids.map (fun x => x.id)).Nodup := by
  have htake_nodup : ((rs.take N).map (fun x => x.id)).Nodup := by
    rw [List.map_take]
    exact (List.take_sublist N _).nodup hnodup
  have hdb' : db.asteroids = rs.take N := by
    rw [hdb]
    have h0 : ((([] : List Asteroid) ++ rs.take N).map (fun y => y.id)).Nodup := by
      simpa using htake_nodup
    rw [putFold_fresh [] (rs.take N) h0]
    rfl
  have hcount : (getPartialLoadProgress db).storedCount = N := by
    simp [getPartialLoadProgress, hdb', List.length_take, Nat.min_eq_left hN]
  set S := resumeStartIndex N with hS
  have hSle : S ≤ N := by
    rw [hS, resumeStartIndex]
    by_cases h0 : N > 0
    · rw [if_pos h0]
      exact Nat.div_mul_le_self N storeBatchSize
    · rw [if_neg h0]
      omega
  have hloop := storeLoop_spec rs (resumeStartIndex (getPartialLoadProgress db).storedCount) db
  rw [hcount] at hloop
  have hfinal : (storeLoop rs S db).asteroids = rs := by
    rw [hloop.1, hdb']
    rw [drop_split_of_le rs S N hSle, putFold_append]
    have hinner : putFold (rs.take N) ((rs.take N).drop S) = rs.take N :=
      putFold_of_forall_mem (rs.take N) ((rs.take N).drop S)
        (fun x hx => List.mem_of_mem_drop hx) htake_nodup
    rw [hinner]
    have houter : putFold (rs.take N) (rs.drop N) = rs.take N ++ rs.drop N := by
      apply putFold_fresh
      rw [List.take_append_drop]
      exact hnodup
    rw [houter, List.take_append_drop]
  refine ⟨hSle, ?_, ?_, ?_⟩
  · simp [storingPhase, markDataLoaded, hcount]
  · simp only [storingPhase, getCachedCount, markDataLoaded, hcount]
    rw [hfinal]
  · simp only [storingPhase, markDataLoaded, hcount]
    rw [hfinal]
    exact hnodup

/-- A minimal all-zero enriched record with a given key, used for concrete
instantiations. -/
noncomputable def sampleAsteroid (s : String) : Asteroid :=
  { id := s, spkid := 0, full_name := "", pdes := "", name := "",
    neo := false, pha := false, H := 0, diameter := 0, albedo := 0,
    diameter_sigma := 0, orbit_id := "", epoch := 0, epoch_mjd := 0,
    e := 0, a := 0, q := 0, i := 0, om := 0, w := 0, ma := 0, ad := 0,
    n := 0, tp := 0, per := 0, per_y := 0, moid := 0, moid_ld := 0,
    cls := "MBA", rms := 0, estimatedValue := 0, miningDifficulty := "",
    category := "", color := "" }

/-- The two-record list used to instantiate C3 concretely. -/
noncomputable def c3Records : List Asteroid :=
  [sampleAsteroid "a", sampleAsteroid "b"]

/-- A database that durably holds exactly the first record of `c3Records`,
as an interrupted ingestion would leave it. -/
noncomputable def c3InterruptedDB : DBState :=
  { asteroids := putFold [] (c3Records.take 1), loadProgress := some (1, 2),
    dataLoaded := false }

/-- Witness for C3 at a concrete interrupted state: one of two records
already stored, restart completes with both records and no duplicates. -/
theorem C3_resume_safety_witness :
    resumeStartIndex 1 ≤ 1 ∧
    (storingPhase c3Records c3InterruptedDB).dataLoaded = true ∧
    getCachedCount (storingPhase c3Records c3InterruptedDB) = c3Records.length ∧
    ((storingPhase c3Records c3InterruptedDB).asteroids.map
      (fun x => x.id)).Nodup :=
  C3_resume_safety c3Records 1 c3InterruptedDB rfl
    (by simp [c3Records, sampleAsteroid]) (by simp [c3Records])

/-- C10. `getPartialLoadProgress` reports a live count: whatever pair was
last written through `updatePartialLoadProgress`, the returned
`storedCount` is the current number of records in the asteroid store, not
the persisted checkpoint number. -/
theorem C10_progress_live_count (db : DBState) (s t : Nat) :
    getPartialLoadProgress (updatePartialLoadProgress s t db) =
      { storedCount := db.asteroids.length
        totalExpected := t
        isComplete := db.dataLoaded } ∧
    (getPartialLoadProgress db).storedCount = getCachedCount db :=
  ⟨rfl, rfl⟩

/-! ## The full-scan read `streamAsteroidsFromCache`
(`src/lib/indexedDB.ts`, lines 248–281)

The function opens one readonly transaction, opens a cursor, and iterates.
Inside the `while (cursor)` loop, after pushing a record, it fires the
progress callback and then `await new Promise(resolve => setTimeout(resolve, 0))`
— a suspension that yields control to the host — whenever
`loaded - lastProgressUpdate >= progressInterval` or `loaded === total`,
with `progressInterval = Math.max(Math.floor(total / 100), 5000)`.  Only
after that does it call `cursor.continue()`.  The temporal behaviour is
modelled as the event trace the scan produces: transaction open, one read
per record, host yields where the `await` happens, transaction completion
when the function returns. -/

/-- Events of one `streamAsteroidsFromCache` scan. -/
inductive ScanEvent where
  | txOpen : ScanEvent
  | readRec : ScanEvent
  | yieldHost : ScanEvent
  | txClose : ScanEvent
  deriving DecidableEq, Repr

/-- The body of the `while (cursor)` loop: per record, a read, then a host
yield when the progress condition fires (`loaded` is the count after the
push, `lastUpd` the value of `lastProgressUpdate`). -/
def scanBody (total : Nat) : List Asteroid → Nat → Nat → List ScanEvent
  | [], _, _ => []
  | _ :: rest, loaded, lastUpd =>
    if loaded + 1 - lastUpd ≥ max (total / 100) 5000 ∨ loaded + 1 = total then
      ScanEvent.readRec :: ScanEvent.yieldHost ::
        scanBody total rest (loaded + 1) (loaded + 1)
    else
      ScanEvent.readRec :: scanBody total rest (loaded + 1) lastUpd

/-- The event trace of `streamAsteroidsFromCache` over a cached store
holding `records`: empty store returns before any transaction is opened;
otherwise the readonly transaction spans the whole cursor loop. -/
def streamTrace (records : List Asteroid) : List ScanEvent :=
  if records.length = 0 then []
  else
    ScanEvent.txOpen ::
      (scanBody records.length records 0 0 ++ [ScanEvent.txClose])

/-- C1 (code behaviour at the failing input).  For a cached store holding a
single record, the scan's trace is `[txOpen, readRec, yieldHost, txClose]`:
the `loaded === total` progress branch fires on the final record and the
function awaits a 0 ms timer — yielding control to the host — strictly
between the transaction open and its completion, i.e. with the scan's
cursor/transaction still open.  This contradicts the claim that every
suspension point lies between independently-opened bounded reads. -/
theorem C1_stream_yields_mid_transaction :
    streamTrace [sampleAsteroid "a"] =
      [ScanEvent.txOpen, ScanEvent.readRec, ScanEvent.yieldHost,
        ScanEvent.txClose] ∧
    ScanEvent.yieldHost ∈ streamTrace [sampleAsteroid "a"] := by
  constructor
  · rfl
  · rw [show streamTrace [sampleAsteroid "a"] =
      [ScanEvent.txOpen, ScanEvent.readRec, ScanEvent.yieldHost,
        ScanEvent.txClose] from rfl]
    simp

/-! ## The orbital solver (`src/three/AsteroidBeltOptimized.ts`, lines 39–80)

`orbitalToCartesian(a, e, i, om, w, ma)` converts six orbital elements
(angles in degrees) to a scene position.  JavaScript float arithmetic is
embedded over `ℝ`; `Math.atan2(y, x)` is the angle of the point `(x, y)`
in `(-π, π]`, which is `Complex.arg (x + y·I)`. -/

/-- Scene scale: `AU = 100` (one astronomical unit = 100 scene units). -/
def sceneAU : ℝ := 100

/-- `THREE.MathUtils.degToRad`. -/
noncomputable def degToRad (deg : ℝ) : ℝ := deg * (Real.pi / 180)

/-- `Math.atan2 y x`: the argument of the point `(x, y)`. -/
noncomputable def atan2 (y x : ℝ) : ℝ := Complex.arg ⟨x, y⟩

/-- One step of the source's Kepler fixed-point loop:
`E = maRad + e * Math.sin(E)`. -/
noncomputable def keplerStep (e maRad E : ℝ) : ℝ := maRad + e * Real.sin E

/-- `orbitalToCartesian` from the source: degree→radian conversion, five
unrolled fixed-point iterations for the eccentric anomaly starting from
`E = maRad`, half-angle true anomaly, radius, orbital-plane position,
analytic rotation entries, and the final `(x·AU, z·AU, y·AU)` swizzle into
the scene's coordinate order.  No clamping of any element is performed. -/
noncomputable def orbitalToCartesian (a e i om w ma : ℝ) : ℝ × ℝ × ℝ :=
  let iRad := degToRad i
  let omRad := degToRad om
  let wRad := degToRad w
  let maRad := degToRad ma
  let E := keplerStep e maRad (keplerStep e maRad (keplerStep e maRad
    (keplerStep e maRad (keplerStep e maRad maRad))))
  let nu := 2 * atan2 (Real.sqrt (1 + e) * Real.sin (E / 2))
    (Real.sqrt (1 - e) * Real.cos (E / 2))
  let r := a * (1 - e * Real.cos E)
  let xOrbit := r * Real.cos nu
  let yOrbit := r * Real.sin nu
  let cosOm := Real.cos omRad
  let sinOm := Real.sin omRad
  let cosI := Real.cos iRad
  let sinI := Real.sin iRad
  let cosW := Real.cos wRad
  let sinW := Real.sin wRad
  let x := (cosOm * cosW - sinOm * sinW * cosI) * xOrbit +
    (-cosOm * sinW - sinOm * cosW * cosI) * yOrbit
  let y := (sinOm * cosW + cosOm * sinW * cosI) * xOrbit +
    (-sinOm * sinW + cosOm * cosW * cosI) * yOrbit
  let z := (sinW * sinI) * xOrbit + (cosW * sinI) * yOrbit
  (x * sceneAU, z * sceneAU, y * sceneAU)

/-! Specification-side formulation for C9: the same computation phrased as
the spec words it — the eccentric anomaly as a `Nat`-indexed fixed-point
iteration started at the mean anomaly, and the frame change as the
composition of the three elementary rotations `Rz(Ω) · Rx(i) · Rz(ω)`
applied to the orbital-plane position. -/

/-- Rotation about the z-axis. -/
noncomputable def rotZ (θ : ℝ) (v : ℝ × ℝ × ℝ) : ℝ × ℝ × ℝ :=
  (Real.cos θ * v.1 - Real.sin θ * v.2.1,
   Real.sin θ * v.1 + Real.cos θ * v.2.1, v.2.2)

/-- Rotation about the x-axis. -/
noncomputable def rotX (θ : ℝ) (v : ℝ × ℝ × ℝ) : ℝ × ℝ × ℝ :=
  (v.1, Real.cos θ * v.2.1 - Real.sin θ * v.2.2,
   Real.sin θ * v.2.1 + Real.cos θ * v.2.2)

/-- `k` fixed-point iterations of `E ↦ M + e·sin E` starting from `E = M`. -/
noncomputable def keplerFixedPoint (e M : ℝ) (k : Nat) : ℝ :=
  (fun E => M + e * Real.sin E)^[k] M

/-- The orbital position as the specification describes it: solve Kepler's
equation by a constant number of fixed-point iterations from `E = M`,
half-angle arctangent true anomaly, `r = a(1 − e·cos E)`, orbital-plane
position, then rotate by `ω`, `i`, `Ω` into the reference frame. -/
noncomputable def orbitalPositionSpec (a e i om w ma : ℝ) : ℝ × ℝ × ℝ :=
  let M := degToRad ma
  let E := keplerFixedPoint e M 5
  let nu := 2 * atan2 (Real.sqrt (1 + e) * Real.sin (E / 2))
    (Real.sqrt (1 - e) * Real.cos (E / 2))
  let r := a * (1 - e * Real.cos E)
  rotZ (degToRad om) (rotX (degToRad i)
    (rotZ (degToRad w) (r * Real.cos nu, r * Real.sin nu, 0)))

/-- C9. The source's solver is exactly the spec's algorithm: five
fixed-point iterations from `E = M` (not a convergence loop), half-angle
true anomaly, `r = a(1 − e·cos E)`, orbital-plane position, and the
analytically composed `Rz(Ω)·Rx(i)·Rz(ω)` rotation — the code's inlined
rotation entries agree with the composition of the three elementary
rotations, up to the final scene scaling and axis swizzle. -/
theorem C9_solver_structure (a e i om w ma : ℝ) :
    orbitalToCartesian a e i om w ma =
      (sceneAU * (orbitalPositionSpec a e i om w ma).1,
       sceneAU * (orbitalPositionSpec a e i om w ma).2.2,
       sceneAU * (orbitalPositionSpec a e i om w ma).2.1) := by
  have hE : keplerFixedPoint e (degToRad ma) 5 =
      keplerStep e (degToRad ma) (keplerStep e (degToRad ma)
        (keplerStep e (degToRad ma) (keplerStep e (degToRad ma)
          (keplerStep e (degToRad ma) (degToRad ma))))) := by
    simp only [keplerFixedPoint, keplerStep]
    rw [show (5 : Nat) = 4 + 1 from rfl, Function.iterate_succ_apply',
      show (4 : Nat) = 3 + 1 from rfl, Function.iterate_succ_apply',
      show (3 : Nat) = 2 + 1 from rfl, Function.iterate_succ_apply',
      show (2 : Nat) = 1 + 1 from rfl, Function.iterate_succ_apply',
      Function.iterate_one]
  simp only [orbitalToCartesian, orbitalPositionSpec, rotZ, rotX, hE]
  refine Prod.ext ?_ (Prod.ext ?_ ?_) <;> simp only <;> ring

/-! ## The renderer (`AsteroidBeltOptimized.loadAsteroids`, lines 109–274)

`loadAsteroids` builds one render instance per record of the (length-capped)
input list — position from `orbitalToCartesian` with `|| `-fallback
elements, scale from `estimateRadius`, detail tier from `getGeometryId`,
color from `getColor`.  `Math.random()` draws (the mean-anomaly fallback
and the orientation) are modelled as an explicit random stream `rnd`;
the random orientation quaternion affects only the instance's rotation and
is not part of any claim, so instances carry position/scale/tier/color. -/

/-- The three LOD geometries registered with the batched mesh. -/
inductive GeoTier where
  | high : GeoTier
  | med : GeoTier
  | low : GeoTier
  deriving DecidableEq, Repr

/-- `getGeometryId`: PHAs/NEOs high detail, `diameter > 10` medium,
everything else low. -/
noncomputable def getGeometryId (ast : Asteroid) : GeoTier :=
  if ast.pha || ast.neo then GeoTier.high
  else if ast.diameter > 10 then GeoTier.med
  else GeoTier.low

/-- `new THREE.Color(hex)`: components normalised to `[0, 1]`. -/
noncomputable def hexColor (h : Nat) : ℝ × ℝ × ℝ :=
  ((h / 65536 : Nat) / 255, (h / 256 % 256 : Nat) / 255, (h % 256 : Nat) / 255)

/-- `getColor` of the belt renderer: spectral-class prefix or albedo
brightness. -/
noncomputable def getColor (ast : Asteroid) : ℝ × ℝ × ℝ :=
  if ast.cls.startsWith "C" then hexColor 0x4a4a4a
  else if ast.cls.startsWith "S" then hexColor 0x8b7355
  else if ast.cls.startsWith "M" then hexColor 0xa8a8a8
  else
    let albedo := jsOrNum ast.albedo 0.1
    let brightness := 0.3 + albedo * 0.7
    (brightness, brightness * 0.9, brightness * 0.8)

/-- `estimateRadius`: diameter-based scale clamped into `[0.1, 2]`, with
the `1329/√albedo · 10^(−0.2 H)` fallback when no diameter is present. -/
noncomputable def estimateRadius (ast : Asteroid) : ℝ :=
  if ast.diameter > 0 then max 0.1 (min 2 (ast.diameter * 0.01))
  else
    let H := jsOrNum ast.H 15
    let albedo := jsOrNum ast.albedo 0.1
    let diameter := 1329 / Real.sqrt albedo * (10 : ℝ) ^ (-(0.2) * H)
    max 0.1 (min 2 (diameter * 0.01))

/-- The position computed for a record's instance in the `loadAsteroids`
loop (lines 203–210): every element falls back through `||` — in
particular `a || 2.5` and `e || 0.1` — and the mean-anomaly fallback is a
fresh `Math.random() * 360`, modelled by the draw `rnd`. -/
noncomputable def beltInstancePosition (ast : Asteroid) (rnd : ℝ) : ℝ × ℝ × ℝ :=
  orbitalToCartesian (jsOrNum ast.a 2.5) (jsOrNum ast.e 0.1)
    (jsOrNum ast.i 0) (jsOrNum ast.om 0) (jsOrNum ast.w 0)
    (jsOrNum ast.ma (rnd * 360))

/-- One render instance as built inside the chunked loop. -/
structure RenderInstance where
  position : ℝ × ℝ × ℝ
  scale : ℝ
  tier : GeoTier
  color : ℝ × ℝ × ℝ

/-- The instance built for one record, `rnd` being that record's random
draw for the mean-anomaly fallback. -/
noncomputable def mkRenderInstance (ast : Asteroid) (rnd : ℝ) : RenderInstance :=
  { position := beltInstancePosition ast rnd
    scale := estimateRadius ast
    tier := getGeometryId ast
    color := getColor ast }

/-- The instance-building loop over a record list (index-threaded random
stream). -/
noncomputable def instancesFrom (rnd : Nat → ℝ) :
    List Asteroid → Nat → List RenderInstance
  | [], _ => []
  | ast :: rest, idx =>
    mkRenderInstance ast (rnd idx) :: instancesFrom rnd rest (idx + 1)

/-- `loadAsteroids(asteroids, maxCount)`: cap at `maxCount`
(default 1,000,000) and build one instance per remaining record.  The loop
has no condition on the orbital elements: no record is excluded. -/
noncomputable def loadAsteroidsInstances (asteroids : List Asteroid)
    (maxCount : Nat) (rnd : Nat → ℝ) : List RenderInstance :=
  instancesFrom rnd (asteroids.take maxCount) 0

/-- `getAsteroidPosition` (lines 280–289): the belt's per-record position
query, `ma || 0` instead of the random fallback.  It takes no time
parameter. -/
noncomputable def getAsteroidPosition (ast : Asteroid) : ℝ × ℝ × ℝ :=
  orbitalToCartesian (jsOrNum ast.a 2.5) (jsOrNum ast.e 0.1)
    (jsOrNum ast.i 0) (jsOrNum ast.om 0) (jsOrNum ast.w 0)
    (jsOrNum ast.ma 0)

/-- The position the scene shows for a record at simulated time `t`.  The
instance matrices are written once inside `loadAsteroids`;
`SceneController`'s animate loop updates the planets, black hole and
flares but never the asteroid belt, and neither `orbitalToCartesian` nor
`getAsteroidPosition` takes a time argument — so the observed position at
every simulated time is the load-time value. -/
noncomputable def beltPositionAtTime (ast : Asteroid) (rnd : ℝ) (t : ℝ) :
    ℝ × ℝ × ℝ :=
  beltInstancePosition ast rnd

/-- The spec's §8 reference body: valid elements
`a = 2.77, e = 0.076, i = 10.6°, Ω = 80.3°, ω = 73.6°, M₀ = 77.4°`. -/
noncomputable def c2Asteroid : Asteroid :=
  { sampleAsteroid "ceres-like" with
    a := 2.77, e := 0.076, i := 10.6, om := 80.3, w := 73.6, ma := 77.4 }

/-- C2 (counterexample).  For a record with valid elements and positive
semi-major axis (so any Kepler-third-law mean motion would be nonzero),
the rendered position at simulated times `0` and `1000` is the same: the
solver takes no time input and no `M = M₀ + n·t` term exists, so the
claimed time dependence fails. -/
theorem C2_position_constant_counterexample :
    0 < c2Asteroid.a ∧ 0 ≤ c2Asteroid.e ∧ c2Asteroid.e < 1 ∧
    (0 : ℝ) ≠ 1000 ∧
    beltPositionAtTime c2Asteroid 0.5 0 = beltPositionAtTime c2Asteroid 0.5 1000 := by
  refine ⟨?_, ?_, ?_, by norm_num, rfl⟩ <;> norm_num [c2Asteroid, sampleAsteroid]

/-- C2 (amended).  The orbital position function takes only the six
elements — the mean anomaly fed to the Kepler solve is the record's `ma`
(with a random fallback when `ma` is 0), with no mean-motion·time term —
so for fixed elements the rendered position is identical at all simulated
times. -/
theorem C2_amended_no_time_input (ast : Asteroid) (rnd : ℝ) (t₁ t₂ : ℝ) :
    beltPositionAtTime ast rnd t₁ = beltPositionAtTime ast rnd t₂ ∧
    beltPositionAtTime ast rnd t₁ =
      orbitalToCartesian (jsOrNum ast.a 2.5) (jsOrNum ast.e 0.1)
        (jsOrNum ast.i 0) (jsOrNum ast.om 0) (jsOrNum ast.w 0)
        (jsOrNum ast.ma (rnd * 360)) :=
  ⟨rfl, rfl⟩

/-- A record with eccentricity `1.5 ≥ 1`. -/
noncomputable def c4Asteroid : Asteroid :=
  { sampleAsteroid "hyperbolic" with a := 2.77, e := 1.5 }

/-- C4 (counterexample).  A record with `e = 1.5` reaches the solver with
eccentricity `1.5`, not a value clamped below 1: the position query passes
the raw `e` straight into `orbitalToCartesian`, and the half-angle form's
radicand `1 − e` is negative there (in JavaScript, `Math.sqrt(1 − e)` is
`NaN`). -/
theorem C4_unclamped_counterexample :
    getAsteroidPosition c4Asteroid = orbitalToCartesian 2.77 1.5 0 0 0 0 ∧
    ¬ ((1.5 : ℝ) < 1) ∧ (1 : ℝ) - 1.5 < 0 := by
  refine ⟨?_, by norm_num, by norm_num⟩
  simp only [getAsteroidPosition, c4Asteroid, sampleAsteroid, jsOrNum]
  norm_num

/-- C4 (amended).  No clamping is performed: for every record with
`e ≥ 1`, the eccentricity used by the Kepler solve and the half-angle
computation is the record's `e` unchanged (the only transformation on the
render path is the `e || 0.1` zero-fallback), and that value is not below
1. -/
theorem C4_amended_eccentricity_unclamped (ast : Asteroid)
    (he : 1 ≤ ast.e) :
    getAsteroidPosition ast =
      orbitalToCartesian (jsOrNum ast.a 2.5) ast.e (jsOrNum ast.i 0)
        (jsOrNum ast.om 0) (jsOrNum ast.w 0) (jsOrNum ast.ma 0) ∧
    ¬ jsOrNum ast.e 0.1 < 1 := by
  have hne : ast.e ≠ 0 := by
    intro h
    rw [h] at he
    norm_num at he
  have hj : jsOrNum ast.e 0.1 = ast.e := by simp [jsOrNum, hne]
  constructor
  · rw [getAsteroidPosition, hj]
  · rw [hj]
    linarith

/-- Witness for C4 (amended) at the concrete `e = 1.5` record. -/
theorem C4_amended_witness :
    (getAsteroidPosition c4Asteroid =
      orbitalToCartesian (jsOrNum c4Asteroid.a 2.5) c4Asteroid.e
        (jsOrNum c4Asteroid.i 0) (jsOrNum c4Asteroid.om 0)
        (jsOrNum c4Asteroid.w 0) (jsOrNum c4Asteroid.ma 0) ∧
    ¬ jsOrNum c4Asteroid.e 0.1 < 1) :=
  C4_amended_eccentricity_unclamped c4Asteroid
    (by norm_num [c4Asteroid, sampleAsteroid])

section RenderLemmas

lemma instancesFrom_length (rnd : Nat → ℝ) (l : List Asteroid) :
    ∀ idx, (instancesFrom rnd l idx).length = l.length := by
  induction l with
  | nil => intro idx; rfl
  | cons x t ih =>
    intro idx
    simp only [instancesFrom, List.length_cons, ih]

lemma find_of_mem_nodup (l : List Asteroid) (ast : Asteroid)
    (hmem : ast ∈ l) (hn : (l.map (fun x => x.id)).Nodup) :
    l.find? (fun x => x.id == ast.id) = some ast := by
  induction l with
  | nil => cases hmem
  | cons x t ih =>
    rcases List.mem_cons.1 hmem with h | h
    · subst h
      simp [List.find?_cons]
    · by_cases hx : x.id = ast.id
      · exfalso
        have hmem' : ast.id ∈ t.map (fun y => y.id) := List.mem_map_of_mem _ h
        rw [List.map_cons, List.nodup_cons] at hn
        exact hn.1 (hx ▸ hmem')
      · have hb : (x.id == ast.id) = false := by simp [hx]
        simp only [List.find?_cons, hb]
        rw [List.map_cons, List.nodup_cons] at hn
        exact ih h hn.2

end RenderLemmas

/-- A record with negative semi-major axis. -/
noncomputable def c5Asteroid : Asteroid :=
  { sampleAsteroid "neg-axis" with a := -1 }

/-- C5 (counterexample).  A record with `a = -1 ≤ 0` is *not* excluded
from rendering: loading a one-record list produces one render instance,
not zero — the instance loop has no validity check on the elements. -/
theorem C5_negative_axis_rendered :
    c5Asteroid.a ≤ 0 ∧
    (loadAsteroidsInstances [c5Asteroid] 1000000 (fun _ => 0.5)).length = 1 := by
  constructor
  · norm_num [c5Asteroid, sampleAsteroid]
  · rfl

/-- C5 (amended).  Records with non-positive semi-major axis are retained
in the store with all their derived fields (the stored value under their
key is the full enriched record), but they are *also* rendered: the
renderer builds exactly one instance per loaded record, excluding
nothing. -/
theorem C5_amended_rendered_and_retained (asteroids : List Asteroid)
    (maxCount : Nat) (rnd : Nat → ℝ) :
    (loadAsteroidsInstances asteroids maxCount rnd).length =
      (asteroids.take maxCount).length ∧
    ((asteroids.map (fun x => x.id)).Nodup → ∀ ast ∈ asteroids, ast.a ≤ 0 →
      getById (putFold [] asteroids) ast.id = some ast) := by
  constructor
  · exact instancesFrom_length rnd (asteroids.take maxCount) 0
  · intro hn ast hmem _
    have hfold : putFold [] asteroids = asteroids := by
      simpa using putFold_fresh [] asteroids (by simpa using hn)
    rw [hfold]
    exact find_of_mem_nodup asteroids ast hmem hn

/-- Witness for C5 (amended): the `a = -1` record is rendered (one
instance) and retained under its key. -/
theorem C5_amended_witness :
    (loadAsteroidsInstances [c5Asteroid] 1000000 (fun _ => 0.5)).length =
      (([c5Asteroid] : List Asteroid).take 1000000).length ∧
    getById (putFold [] [c5Asteroid]) c5Asteroid.id = some c5Asteroid :=
  ⟨(C5_amended_rendered_and_retained [c5Asteroid] 1000000 (fun _ => 0.5)).1,
   (C5_amended_rendered_and_retained [c5Asteroid] 1000000 (fun _ => 0.5)).2
     (by simp) c5Asteroid (by simp)
     (by norm_num [c5Asteroid, sampleAsteroid])⟩

/-! ## CSV parsing and enrichment (`src/lib/dataLoader.ts`)

The source's `parseRow` walks the row character by character (quote
toggling, comma splitting), so strings on the parsing path are embedded as
`List Char`.  `parseFloat`/`toUpperCase`/`trim`/`split` are JavaScript
builtins, modelled on the value shapes this dataset's code paths produce
(plain decimal literals; ASCII case). -/

/-- `Partial<Asteroid>`: the object `parseRow` assembles — every field
optional. -/
structure RawRow where
  id : Option String := none
  spkid : Option ℝ := none
  full_name : Option String := none
  pdes : Option String := none
  name : Option String := none
  neo : Option Bool := none
  pha : Option Bool := none
  H : Option ℝ := none
  diameter : Option ℝ := none
  albedo : Option ℝ := none
  diameter_sigma : Option ℝ := none
  orbit_id : Option String := none
  epoch : Option ℝ := none
  epoch_mjd : Option ℝ := none
  e : Option ℝ := none
  a : Option ℝ := none
  q : Option ℝ := none
  i : Option ℝ := none
  om : Option ℝ := none
  w : Option ℝ := none
  ma : Option ℝ := none
  ad : Option ℝ := none
  n : Option ℝ := none
  tp : Option ℝ := none
  per : Option ℝ := none
  per_y : Option ℝ := none
  moid : Option ℝ := none
  moid_ld : Option ℝ := none
  cls : Option String := none
  rms : Option ℝ := none

/-- The all-absent row. -/
def emptyRawRow : RawRow := {}

/-- `String.prototype.split(c)` (used for the header line and the
newline split). -/
def splitOnCharAux (c : Char) : List Char → List Char → List (List Char)
  | [], acc => [acc.reverse]
  | x :: xs, acc =>
    if x = c then acc.reverse :: splitOnCharAux c xs []
    else splitOnCharAux c xs (x :: acc)

/-- `s.split(c)`. -/
def splitOnChar (c : Char) (s : List Char) : List (List Char) :=
  splitOnCharAux c s []

/-- `String.prototype.trim()`. -/
def jsTrim (s : List Char) : List Char :=
  ((s.dropWhile Char.isWhitespace).reverse.dropWhile Char.isWhitespace).reverse

/-- `String.prototype.toUpperCase()` (ASCII, as the flag values here). -/
def jsToUpperCase (s : String) : String := String.mk (s.data.map Char.toUpper)

/-- Value of a digit run. -/
def digitsToNat (ds : List Char) : Nat :=
  ds.foldl (fun acc c => acc * 10 + (c.toNat - 48)) 0

/-- The JavaScript `parseFloat` builtin on plain decimal literals
(optional sign, integer part, optional fractional part), the only number
shapes the dataset's numeric columns carry; a string with no leading
number gives `NaN`, i.e. `none`. -/
noncomputable def jsParseFloat (s : List Char) : Option ℝ :=
  let signed : ℝ × List Char :=
    match s with
    | '-' :: r => (-1, r)
    | '+' :: r => (1, r)
    | r => (1, r)
  let ip := signed.2.takeWhile Char.isDigit
  let rest := signed.2.dropWhile Char.isDigit
  let fp :=
    match rest with
    | '.' :: r => r.takeWhile Char.isDigit
    | _ => []
  if ip.length = 0 ∧ fp.length = 0 then none
  else
    some (signed.1 *
      ((digitsToNat ip : ℝ) + (digitsToNat fp : ℝ) / (10 : ℝ) ^ fp.length))

/-- `const num = parseFloat(value); isNaN(num) ? 0 : num`. -/
noncomputable def parseFloatOrZero (value : String) : ℝ :=
  (jsParseFloat value.data).getD 0

/-- The character loop of `parseRow` (lines 148–164): walk the row with a
quote flag, push `current.trim()` at each unquoted comma, push the final
`current.trim()` at the end; quote characters toggle the flag and are not
kept. -/
def parseRowValuesAux : List Char → Bool → List Char → List (List Char)
  | [], _, current => [jsTrim current.reverse]
  | ch :: rest, inQuotes, current =>
    if ch = '"' then parseRowValuesAux rest (!inQuotes) current
    else if ch = ',' ∧ inQuotes = false then
      jsTrim current.reverse :: parseRowValuesAux rest inQuotes []
    else parseRowValuesAux rest inQuotes (ch :: current)

/-- The `headers.forEach((header, i) => { ... obj[header] = ... })` body:
`neo`/`pha` parse as case-insensitive `Y` flags, the listed numeric
columns through `parseFloat` with `NaN ↦ 0`, everything else as the raw
string.  Headers outside the `Asteroid` shape would create object
properties nothing ever reads, so they leave the row unchanged. -/
noncomputable def setField (row : RawRow) (header : String) (value : String) :
    RawRow :=
  if header = "neo" then { row with neo := some (jsToUpperCase value == "Y") }
  else if header = "pha" then { row with pha := some (jsToUpperCase value == "Y") }
  else if header = "spkid" then { row with spkid := some (parseFloatOrZero value) }
  else if header = "H" then { row with H := some (parseFloatOrZero value) }
  else if header = "diameter" then { row with diameter := some (parseFloatOrZero value) }
  else if header = "albedo" then { row with albedo := some (parseFloatOrZero value) }
  else if header = "diameter_sigma" then { row with diameter_sigma := some (parseFloatOrZero value) }
  else if header = "epoch" then { row with epoch := some (parseFloatOrZero value) }
  else if header = "epoch_mjd" then { row with epoch_mjd := some (parseFloatOrZero value) }
  else if header = "e" then { row with e := some (parseFloatOrZero value) }
  else if header = "a" then { row with a := some (parseFloatOrZero value) }
  else if header = "q" then { row with q := some (parseFloatOrZero value) }
  else if header = "i" then { row with i := some (parseFloatOrZero value) }
  else if header = "om" then { row with om := some (parseFloatOrZero value) }
  else if header = "w" then { row with w := some (parseFloatOrZero value) }
  else if header = "ma" then { row with ma := some (parseFloatOrZero value) }
  else if header = "ad" then { row with ad := some (parseFloatOrZero value) }
  else if header = "n" then { row with n := some (parseFloatOrZero value) }
  else if header = "tp" then { row with tp := some (parseFloatOrZero value) }
  else if header = "per" then { row with per := some (parseFloatOrZero value) }
  else if header = "per_y" then { row with per_y := some (parseFloatOrZero value) }
  else if header = "moid" then { row with moid := some (parseFloatOrZero value) }
  else if header = "moid_ld" then { row with moid_ld := some (parseFloatOrZero value) }
  else if header = "rms" then { row with rms := some (parseFloatOrZero value) }
  else if header = "id" then { row with id := some value }
  else if header = "full_name" then { row with full_name := some value }
  else if header = "pdes" then { row with pdes := some value }
  else if header = "name" then { row with name := some value }
  else if header = "orbit_id" then { row with orbit_id := some value }
  else if header = "class" then { row with cls := some value }
  else row

/-- `parseRow(row, headers)`: split the row's values; reject rows with
fewer values than headers; otherwise assemble the partial record (extra
values beyond the headers are ignored, as `forEach` runs over the
headers). -/
noncomputable def parseRow (headers : List String) (row : List Char) :
    Option RawRow :=
  let values := parseRowValuesAux row false []
  if values.length < headers.length then none
  else
    some ((headers.zip (values.map String.mk)).foldl
      (fun acc hv => setField acc hv.1 hv.2) emptyRawRow)

/-- `classifyAsteroid`: the decision tree over destructured
`{a = 0, e = 0, q = 0, neo, pha}` (destructuring defaults apply only to
absent fields). -/
noncomputable def classifyAsteroid (ast : RawRow) : String :=
  let a := ast.a.getD 0
  let e := ast.e.getD 0
  let q := ast.q.getD 0
  if ast.pha.getD false then "Potentially Hazardous"
  else if ast.neo.getD false then "Near-Earth Object"
  else if 2.0 ≤ a ∧ a ≤ 3.3 ∧ e < 0.3 then
    if a < 2.5 then "Inner Main Belt"
    else if a < 2.82 then "Middle Main Belt"
    else "Outer Main Belt"
  else if 5.05 ≤ a ∧ a ≤ 5.4 then "Jupiter Trojan"
  else if 30 ≤ a ∧ a ≤ 50 then "Kuiper Belt Object"
  else if a > 30 then "Trans-Neptunian Object"
  else if 3.7 ≤ a ∧ a ≤ 4.2 ∧ e < 0.3 then "Hilda Asteroid"
  else if q < 1.017 ∧ a ≥ 1.0 then "Apollo Asteroid"
  else if q ≥ 1.017 ∧ q ≤ 1.3 ∧ a > 1.0 then "Amor Asteroid"
  else if a < 1.0 then "Aten Asteroid"
  else "Unknown"

/-- `getAsteroidColor` (the data-loader one, a hex string). -/
noncomputable def getAsteroidColor (ast : RawRow) : String :=
  let albedo := jsOrONum ast.albedo 0.1
  let className := jsOrOStr ast.cls ""
  if className.startsWith "C" = true ∨ albedo < 0.1 then "#4a4a4a"
  else if className.startsWith "S" = true ∨ (0.1 ≤ albedo ∧ albedo < 0.25) then
    "#8b7355"
  else if className.startsWith "M" = true ∨ 0.25 ≤ albedo then "#a8a8a8"
  else if albedo < 0.05 then "#2d2d2d"
  else if albedo < 0.15 then "#5a5a5a"
  else if albedo < 0.3 then "#888888"
  else "#b0b0b0"

/-- `getMiningDifficulty`: delta-v proxy bucketed with the MOID. -/
noncomputable def getMiningDifficulty (ast : RawRow) : String :=
  let a := ast.a.getD 0
  let e := ast.e.getD 0
  let i := ast.i.getD 0
  let moid := ast.moid.getD 999
  let deltaV := |a - 1| * 5 + e * 3 + i / 10 * 2
  if deltaV < 3 ∧ moid < 0.1 then "Easy"
  else if deltaV < 5 ∧ moid < 0.3 then "Moderate"
  else if deltaV < 8 then "Difficult"
  else if deltaV < 12 then "Very Difficult"
  else "Extreme"

/-- JavaScript number truncation (toward zero), for the `%` operator. -/
noncomputable def jsTrunc (x : ℝ) : ℤ := if x < 0 then ⌈x⌉ else ⌊x⌋

/-- JavaScript `x % y`: remainder with the dividend's sign. -/
noncomputable def jsFmod (x y : ℝ) : ℝ := x - y * (jsTrunc (x / y) : ℝ)

/-- `Math.round`. -/
noncomputable def jsRound (x : ℝ) : ℤ := ⌊x + 1 / 2⌋

/-- `estimateValueFromDiameter(diameter, albedo, className)`: sphere
volume, class/albedo density, mass, per-kg value with the deterministic
`0.5 + (diameter % 10) / 10` variance factor, a `1e-7` rescale, the
sub-million clamp `max(100000, value * 100)`, and `Math.round`.  (The
source initialises `valuePerKg` to `0.0001 * varianceFactor`, but the
following if/else chain overwrites it on every path.) -/
noncomputable def estimateValueFromDiameter (diameter albedo : ℝ)
    (className : String) : ℤ :=
  let radius := diameter / 2
  let volume := 4 / 3 * Real.pi * radius ^ 3
  let density : ℝ :=
    if className.startsWith "C" = true ∨ albedo < 0.1 then 1.5
    else if className.startsWith "M" = true ∨ albedo > 0.25 then 5.0
    else if className.startsWith "S" = true then 2.7
    else 2.5
  let massKg := volume * 1e9 * density * 1000
  let varianceFactor := 0.5 + jsFmod diameter 10 / 10
  let valuePerKg : ℝ :=
    if className.startsWith "M" = true ∨ albedo > 0.25 then 0.1 * varianceFactor
    else if className.startsWith "C" = true ∨ albedo < 0.1 then 0.01 * varianceFactor
    else 0.005 * varianceFactor
  let value := massKg * valuePerKg * 0.0000001
  let clamped := if value < 1000000 then max 100000 (value * 100) else value
  jsRound clamped

/-- `estimateValue(asteroid)`: diameter-based when `diameter || 0 > 0`,
else the `1329/√(albedo || 0.1) · 10^(−0.2·(H || 20))` fallback
diameter. -/
noncomputable def estimateValue (ast : RawRow) : ℤ :=
  let diameter := jsOrONum ast.diameter 0
  let albedo := jsOrONum ast.albedo 0.1
  let className := jsOrOStr ast.cls ""
  if diameter ≤ 0 then
    estimateValueFromDiameter
      (1329 / Real.sqrt (jsOrNum albedo 0.1) *
        (10 : ℝ) ^ (-(0.2) * jsOrONum ast.H 20))
      albedo className
  else estimateValueFromDiameter diameter albedo className

/-- The enrichment step of `loadAsteroidData` (lines 313–349): the stored
`Asteroid` built from a parsed row, `||`-defaults on each field and the
four derived fields computed from the *partial* row. -/
noncomputable def buildAsteroid (parsed : RawRow) : Asteroid :=
  { id := parsed.id.getD ""
    spkid := jsOrONum parsed.spkid 0
    full_name := jsOrOStr parsed.full_name ""
    pdes := jsOrOStr parsed.pdes ""
    name := jsOrOStr parsed.name ""
    neo := jsOrOBool parsed.neo
    pha := jsOrOBool parsed.pha
    H := jsOrONum parsed.H 0
    diameter := jsOrONum parsed.diameter 0
    albedo := jsOrONum parsed.albedo 0.1
    diameter_sigma := jsOrONum parsed.diameter_sigma 0
    orbit_id := jsOrOStr parsed.orbit_id ""
    epoch := jsOrONum parsed.epoch 0
    epoch_mjd := jsOrONum parsed.epoch_mjd 0
    e := jsOrONum parsed.e 0
    a := jsOrONum parsed.a 0
    q := jsOrONum parsed.q 0
    i := jsOrONum parsed.i 0
    om := jsOrONum parsed.om 0
    w := jsOrONum parsed.w 0
    ma := jsOrONum parsed.ma 0
    ad := jsOrONum parsed.ad 0
    n := jsOrONum parsed.n 0
    tp := jsOrONum parsed.tp 0
    per := jsOrONum parsed.per 0
    per_y := jsOrONum parsed.per_y 0
    moid := jsOrONum parsed.moid 999
    moid_ld := jsOrONum parsed.moid_ld 0
    cls := jsOrOStr parsed.cls "MBA"
    rms := jsOrONum parsed.rms 0
    estimatedValue := estimateValue parsed
    miningDifficulty := getMiningDifficulty parsed
    category := classifyAsteroid parsed
    color := getAsteroidColor parsed }

/-- The parse phase of `loadAsteroidData` (lines 298–368): split lines,
take the headers from the first line (`split(',')` + `trim`), then per
data line: trim, skip empty, `parseRow`, skip when the row is malformed or
has a falsy `id`, else enrich.  (The batching only paces progress
callbacks; the resulting record list is the same.) -/
noncomputable def parseCSV (csvText : List Char) : List Asteroid :=
  match splitOnChar '\n' csvText with
  | [] => []
  | headerLine :: dataLines =>
    let headers := (splitOnChar ',' headerLine).map (fun h => String.mk (jsTrim h))
    dataLines.filterMap (fun rawLine =>
      let line := jsTrim rawLine
      if line.length = 0 then none
      else
        match parseRow headers line with
        | none => none
        | some parsed =>
          if parsed.id = none ∨ parsed.id = some "" then none
          else some (buildAsteroid parsed))

/-- The progress phases of `LoadProgress`. -/
inductive Phase where
  | checking : Phase
  | downloading : Phase
  | parsing : Phase
  | storing : Phase
  | loadingCache : Phase
  | complete : Phase
  deriving DecidableEq, Repr

/-- The `LoadProgress` events handed to `onProgress`. -/
structure LoadProgress where
  phase : Phase
  current : Nat
  total : Nat
  message : String
  deriving DecidableEq

/-- `Number.prototype.toLocaleString()`: below 1000 (the only range
evaluated in this development) it is just the decimal digits; larger
values would carry locale group separators. -/
def jsToLocaleString (nv : Nat) : String := toString nv

/-- The terminal progress event of `loadAsteroidData` (lines 398–403):
phase `complete`, current and total the record count, and the message
`Loaded ${asteroids.length.toLocaleString()} asteroids` — the only final
summary the pipeline emits. -/
def loadCompleteEvent (count : Nat) : LoadProgress :=
  { phase := Phase.complete, current := count, total := count,
    message := "Loaded " ++ jsToLocaleString count ++ " asteroids" }

/-- The cache-miss path of `loadAsteroidData` given the downloaded CSV
text: parse + enrich, run the resumable storing phase, emit the terminal
progress event. -/
noncomputable def loadAsteroidDataModel (csvText : List Char) (db : DBState) :
    DBState × LoadProgress :=
  (storingPhase (parseCSV csvText) db,
   loadCompleteEvent (parseCSV csvText).length)

/-- A fresh database (no records, no checkpoint, not complete). -/
def emptyDB : DBState := { asteroids := [], loadProgress := none, dataLoaded := false }

lemma storingPhase_fresh (rs : List Asteroid)
    (hnodup : (rs.map (fun x => x.id)).Nodup) :
    (storingPhase rs emptyDB).asteroids = rs ∧
    (storingPhase rs emptyDB).dataLoaded = true := by
  have h0 : (getPartialLoadProgress emptyDB).storedCount = 0 := rfl
  have hri : resumeStartIndex 0 = 0 := rfl
  unfold storingPhase
  rw [h0, hri]
  refine ⟨?_, rfl⟩
  show (storeLoop rs 0 emptyDB).asteroids = rs
  rw [(storeLoop_spec rs 0 emptyDB).1, List.drop_zero]
  show putFold [] rs = rs
  have hfold := putFold_fresh [] rs (by simpa using hnodup)
  simpa using hfold

/-- The 10-row fixture with one malformed (short) row, `x5,short`. -/
def c6Fixture : String :=
  "id,name,pdes\nr1,alpha,p1\nr2,beta,p2\nr3,gamma,p3\nr4,delta,p4\nx5,short\nr6,eps,p6\nr7,zeta,p7\nr8,eta,p8\nr9,theta,p9\nr10,iota,p10"

set_option maxRecDepth 4000

/-- C6 (counterexample).  For the 10-row fixture with one short row, the
pipeline's terminal summary is exactly the `complete` event with message
`"Loaded 9 asteroids"` — a message containing neither the substring
`"skip"` nor the character `'1'`, so no skipped-row count of 1 is reported
anywhere in the final summary (the code keeps no skipped-row counter at
all). -/
theorem C6_no_skipped_count_in_summary :
    (loadAsteroidDataModel c6Fixture.data emptyDB).2 =
      { phase := Phase.complete, current := 9, total := 9,
        message := "Loaded 9 asteroids" } ∧
    ¬ List.IsInfix "skip".data "Loaded 9 asteroids".data ∧
    '1' ∉ "Loaded 9 asteroids".data := by
  refine ⟨by decide, by decide, by decide⟩

/-- C6 (amended).  Ingesting the 10-row fixture with one malformed row
completes rather than failing: 9 records parse, `count() == 9`, the
completion flag is set — but the malformed row is skipped silently; the
final summary reports only the loaded count. -/
theorem C6_malformed_row_skipped_silently :
    (parseCSV c6Fixture.data).length = 9 ∧
    getCachedCount (loadAsteroidDataModel c6Fixture.data emptyDB).1 = 9 ∧
    (loadAsteroidDataModel c6Fixture.data emptyDB).1.dataLoaded = true ∧
    (loadAsteroidDataModel c6Fixture.data emptyDB).2.message =
      "Loaded 9 asteroids" := by
  have hnodup : ((parseCSV c6Fixture.data).map (fun x => x.id)).Nodup := by decide
  have hlen : (parseCSV c6Fixture.data).length = 9 := by decide
  have hfresh := storingPhase_fresh (parseCSV c6Fixture.data) hnodup
  refine ⟨hlen, ?_, hfresh.2, by decide⟩
  show getCachedCount (storingPhase (parseCSV c6Fixture.data) emptyDB) = 9
  simp only [getCachedCount, hfresh.1, hlen]

section ValueLemmas

lemma clamp_round_ge (x : ℝ) :
    (100000 : ℤ) ≤ jsRound (if x < 1000000 then max 100000 (x * 100) else x) := by
  rw [jsRound, Int.le_floor]
  by_cases h : x < 1000000
  · rw [if_pos h]
    have h1 : (100000 : ℝ) ≤ max 100000 (x * 100) := le_max_left _ _
    push_cast
    linarith
  · rw [if_neg h]
    push_cast
    linarith [not_lt.1 h]

lemma estimateValueFromDiameter_ge (d albedo : ℝ) (cls : String) :
    (100000 : ℤ) ≤ estimateValueFromDiameter d albedo cls := by
  unfold estimateValueFromDiameter
  exact clamp_round_ge _

end ValueLemmas

/-- C8. The value estimate is strictly positive for every row (the
sub-million clamp forces at least 100000 before rounding), deterministic
(the variance factor is a function of the diameter, not randomness), and
uses the given diameter exactly when `diameter || 0 > 0`, falling back to
the `1329/√albedo · 10^(−0.2 H)` equivalent diameter otherwise. -/
theorem C8_value_estimate (row : RawRow) :
    0 < estimateValue row ∧
    (∀ row2 : RawRow, row2 = row → estimateValue row2 = estimateValue row) ∧
    (0 < jsOrONum row.diameter 0 →
      estimateValue row = estimateValueFromDiameter (jsOrONum row.diameter 0)
        (jsOrONum row.albedo 0.1) (jsOrOStr row.cls "")) ∧
    (jsOrONum row.diameter 0 ≤ 0 →
      estimateValue row = estimateValueFromDiameter
        (1329 / Real.sqrt (jsOrNum (jsOrONum row.albedo 0.1) 0.1) *
          (10 : ℝ) ^ (-(0.2) * jsOrONum row.H 20))
        (jsOrONum row.albedo 0.1) (jsOrOStr row.cls "")) := by
  refine ⟨?_, ?_, ?_, ?_⟩
  · simp only [estimateValue]
    by_cases h : jsOrONum row.diameter 0 ≤ 0
    · rw [if_pos h]
      exact lt_of_lt_of_le (by norm_num) (estimateValueFromDiameter_ge _ _ _)
    · rw [if_neg h]
      exact lt_of_lt_of_le (by norm_num) (estimateValueFromDiameter_ge _ _ _)
  · intro row2 hrow
    rw [hrow]
  · intro h
    simp only [estimateValue]
    rw [if_neg (not_le.2 h)]
  · intro h
    simp only [estimateValue]
    rw [if_pos h]

/-- The spec's §8 scenario row with the diameter absent: `H = 15`,
`albedo = 0.1`. -/
def c8RowNoDiameter : RawRow := { emptyRawRow with H := some 15, albedo := some 0.1 }

/-- The same scenario with a diameter present. -/
def c8RowWithDiameter : RawRow :=
  { emptyRawRow with diameter := some 500, H := some 15, albedo := some 0.1 }

/-- Witness for C8 at the spec's scenario rows: diameter absent takes the
magnitude fallback and is positive; diameter present takes the
diameter-based path. -/
theorem C8_value_estimate_witness :
    0 < estimateValue c8RowNoDiameter ∧
    estimateValue c8RowNoDiameter = estimateValueFromDiameter
      (1329 / Real.sqrt (jsOrNum (jsOrONum c8RowNoDiameter.albedo 0.1) 0.1) *
        (10 : ℝ) ^ (-(0.2) * jsOrONum c8RowNoDiameter.H 20))
      (jsOrONum c8RowNoDiameter.albedo 0.1) (jsOrOStr c8RowNoDiameter.cls "") ∧
    estimateValue c8RowWithDiameter = estimateValueFromDiameter
      (jsOrONum c8RowWithDiameter.diameter 0)
      (jsOrONum c8RowWithDiameter.albedo 0.1)
      (jsOrOStr c8RowWithDiameter.cls "") :=
  ⟨(C8_value_estimate c8RowNoDiameter).1,
   (C8_value_estimate c8RowNoDiameter).2.2.2
     (by norm_num [c8RowNoDiameter, emptyRawRow, jsOrONum]),
   (C8_value_estimate c8RowWithDiameter).2.2.1
     (by norm_num [c8RowWithDiameter, emptyRawRow, jsOrONum, jsOrNum])⟩

end MapSolar
